import Mathlib

/-!
# Verification of the flask_blog authentication / authorization core

A shallow embedding of the security-relevant parts of the `flaskblog`
package: the user and post data model (`flaskblog/models.py`), the
registration / login / password-reset routes (`flaskblog/users/routes.py`
and `flaskblog/users/forms.py`) and the guarded post routes
(`flaskblog/posts/routes.py`).

The web store (SQLAlchemy) is embedded as a list of records; routes become
pure functions from a store and the current session identity to an outcome
tag paired with the resulting store.  Third-party cryptographic primitives
(the bcrypt hasher and the itsdangerous timed serializer) are not part of
the repository source; they are modelled symbolically from the spec's
contracts (§4.1 Password Hasher, §4.4 Signed Token Service), each such
definition is marked `Modelled from the spec:` in its doc comment.
-/

/-! ## Password hasher (spec §4.1) -/

/-- Modelled from the spec: the opaque output of the bcrypt-class password
hasher (the `bcrypt` library is not part of the repository source).  The
spec requires a per-call salt embedded in the output, so the value carries
the salt alongside a tag that symbolically stands for the one-way digest of
(salt, plaintext). -/
structure PwHash where
  salt : Nat
  tag : Nat × String
deriving DecidableEq, Repr

/-- Modelled from the spec: the symbolic one-way digest underlying the
hasher.  One-wayness is not representable in a shallow embedding; what the
claims use is that distinct (salt, plaintext) pairs give distinct digests,
which the symbolic pairing provides. -/
def bcryptTag (salt : Nat) (plaintext : String) : Nat × String :=
  (salt, plaintext)

/-- Modelled from the spec: `hash(plaintext) -> opaque_hash`
(`bcrypt.generate_password_hash` in the source callers); the fresh per-call
salt is passed explicitly. -/
def generate_password_hash (plaintext : String) (salt : Nat) : PwHash :=
  ⟨salt, bcryptTag salt plaintext⟩

/-- Modelled from the spec: `verify(opaque_hash, plaintext) -> bool`
(`bcrypt.check_password_hash` in the source callers): recompute the digest
with the embedded salt and compare. -/
def check_password_hash (h : PwHash) (plaintext : String) : Bool :=
  h.tag == bcryptTag h.salt plaintext

/-! ## User model and credential store (`flaskblog/models.py`) -/

/-- The `User` model of `flaskblog/models.py`: id (primary key), unique
username, unique email, profile image file name, bcrypt password hash. -/
structure User where
  id : Nat
  username : String
  email : String
  image_file : String
  password : PwHash
deriving DecidableEq, Repr

/-- The persisted user table. -/
abbrev Store := List User

/-- Embeds `User.query.filter_by(email=email).first()`. -/
def findByEmail (s : Store) (email : String) : Option User :=
  s.find? (fun u => u.email == email)

/-- Embeds `User.query.filter_by(username=username).first()`. -/
def findByUsername (s : Store) (username : String) : Option User :=
  s.find? (fun u => u.username == username)

/-- Embeds `User.query.get(user_id)`: primary-key lookup. -/
def getById (s : Store) (uid : Nat) : Option User :=
  s.find? (fun u => u.id == uid)

/-! ## Signed token service (spec §4.4, `flaskblog/models.py`) -/

/-- The two failure kinds of the timed serializer: `SignatureExpired` and
`BadSignature` of itsdangerous. -/
inductive TokenErr where
  | Expired
  | Invalid
deriving DecidableEq, Repr

/-- A self-contained signed token as produced by the
`URLSafeTimedSerializer`: the payload (`{'user_id': ...}`), the embedded
issuance timestamp, and the signature value. -/
structure SignedToken where
  user_id : Nat
  timestamp : Nat
  signature : Nat
deriving DecidableEq, Repr

/-- Modelled from the spec: the cryptographic signature computed with the
server-held secret over payload and timestamp (the itsdangerous library is
not part of the repository source).  The symbolic injective pairing stands
for the MAC; unforgeability is reflected by signature validity being exact
equality with this value. -/
def signature_of (secret user_id timestamp : Nat) : Nat :=
  Nat.pair secret (Nat.pair user_id timestamp)

/-- Modelled from the spec: `s.dumps({'user_id': ...})` of the timed
serializer — serialize the payload together with the current timestamp and
sign it with the secret. -/
def serializer_dumps (secret user_id now : Nat) : SignedToken :=
  ⟨user_id, now, signature_of secret user_id now⟩

/-- Modelled from the spec: `s.loads(token, max_age=...)` of the timed
serializer — reject a signature mismatch as `Invalid` (`BadSignature`),
then reject an age greater than `max_age` as `Expired`
(`SignatureExpired`), else return the payload. -/
def serializer_loads (secret : Nat) (t : SignedToken) (now maxAge : Nat) :
    Except TokenErr Nat :=
  if t.signature ≠ signature_of secret t.user_id t.timestamp then
    .error .Invalid
  else if maxAge < now - t.timestamp then
    .error .Expired
  else
    .ok t.user_id

/-- Embeds `User.get_reset_token` (`flaskblog/models.py`): serialize
`{'user_id': self.id}` with the app secret. -/
def get_reset_token (secret : Nat) (u : User) (now : Nat) : SignedToken :=
  serializer_dumps secret u.id now

/-- Embeds `User.verify_reset_token` (`flaskblog/models.py`): load the token with
`max_age=expires_sec`; on `SignatureExpired` or `BadSignature` return
`None`, else `User.query.get(user_id)`. -/
def verify_reset_token (secret : Nat) (s : Store) (t : SignedToken)
    (now expires_sec : Nat) : Option User :=
  match serializer_loads secret t now expires_sec with
  | .error _ => none
  | .ok uid => getById s uid

/-- Embeds `User.verify_reset_token` with the default `expires_sec=1800`
(30 minutes), as used by the password-reset route. -/
def verify_reset_token_default (secret : Nat) (s : Store) (t : SignedToken)
    (now : Nat) : Option User :=
  verify_reset_token secret s t now 1800

/-! ## Registration and account update
(`flaskblog/users/routes.py`, `flaskblog/users/forms.py`) -/

/-- Outcome tag of the `register` route's validated-POST path. -/
inductive RegTag where
  | created
  | usernameTaken
  | emailTaken
deriving DecidableEq, Repr

/-- The `register` route (`flaskblog/users/routes.py`) on a POST with a
syntactically valid form, paired with the resulting store.
`RegisterationForm.validate_username` rejects a username already present;
`RegisterationForm.validate_email` rejects an email already present; on
success a new `User` with the bcrypt-hashed password is added and
committed.  `newId` is the store-assigned primary key, `salt` the hasher's
fresh salt. -/
def register (s : Store) (uname email pw : String) (newId salt : Nat) :
    RegTag × Store :=
  if (findByUsername s uname).isSome then
    (.usernameTaken, s)
  else if (findByEmail s email).isSome then
    (.emailTaken, s)
  else
    (.created, s ++ [⟨newId, uname, email, "default.jpg",
                      generate_password_hash pw salt⟩])

/-- The per-record effect of the `account` route's commit: the current
user's row gets the submitted username, email and (optionally) picture;
every other row is untouched. -/
def applyAccountUpdate (cu : User) (newUname newEmail : String)
    (newPic : Option String) (v : User) : User :=
  if v.id == cu.id then
    { v with username := newUname, email := newEmail,
             image_file := newPic.getD v.image_file }
  else v

/-- The `account` route (`flaskblog/users/routes.py`) on a validated POST:
`UpdateAccountForm.validate_username` rejects a changed username that is
taken, `validate_email` likewise for the email; on success the current
user's username, email and (optionally) image file are updated in place and
committed. -/
def update_account (s : Store) (cu : User) (newUname newEmail : String)
    (newPic : Option String) : RegTag × Store :=
  if (newUname != cu.username) && (findByUsername s newUname).isSome then
    (.usernameTaken, s)
  else if (newEmail != cu.email) && (findByEmail s newEmail).isSome then
    (.emailTaken, s)
  else
    (.created, s.map (applyAccountUpdate cu newUname newEmail newPic))

/-- The per-record effect of the `reset_token` route's password write: the
record with the given id gets the new hash, every other record is
untouched. -/
def applyPasswordChange (uid : Nat) (h : PwHash) (v : User) : User :=
  if v.id == uid then { v with password := h } else v

/-- The password write of the `reset_token` route: `user.password =
hashed_password; db.session.commit()` — replace the hash of the user with
the given id, touching nothing else. -/
def setPassword (s : Store) (uid : Nat) (h : PwHash) : Store :=
  s.map (applyPasswordChange uid h)

/-- The user-store states reachable through the application's own write
operations: the empty store, successful registration (with a fresh
store-assigned primary key), successful account update by a logged-in user,
and a password reset. -/
inductive Reachable : Store → Prop where
  | nil : Reachable []
  | register (s s' : Store) (uname email pw : String) (newId salt : Nat) :
      Reachable s → (∀ v ∈ s, v.id ≠ newId) →
      register s uname email pw newId salt = (.created, s') → Reachable s'
  | updateAccount (s s' : Store) (cu : User) (nu ne : String)
      (pic : Option String) :
      Reachable s → cu ∈ s →
      update_account s cu nu ne pic = (.created, s') → Reachable s'
  | resetPassword (s : Store) (uid : Nat) (h : PwHash) :
      Reachable s → Reachable (setPassword s uid h)

/-- No two records share a username (spec §3 uniqueness invariant). -/
def uniqueUsernames (s : Store) : Prop :=
  s.Pairwise (fun a b => a.username ≠ b.username)

/-- No two records share an email (spec §3 uniqueness invariant). -/
def uniqueEmails (s : Store) : Prop :=
  s.Pairwise (fun a b => a.email ≠ b.email)

/-- No two records share a primary key. -/
def uniqueIds (s : Store) : Prop :=
  s.Pairwise (fun a b => a.id ≠ b.id)

/-! ## Login (`flaskblog/users/routes.py`) -/

/-- Observable outcome of the `login` route on a validated POST. -/
inductive LoginOutcome where
  | redirectHome
  | success (u : User) (remember : Bool)
  | failure (msg : String)
deriving DecidableEq, Repr

/-- The `login` route: an authenticated caller is redirected home;
otherwise look up the user by email and check the password hash — on a
match `login_user(user, remember=...)` establishes the session, and in
every other case the single flash `'Login Unsuccessful. Please check email
and password'` is shown (the source's `if user and
bcrypt.check_password_hash(...)` sends both the unknown-email and the
wrong-password case into the same `else`). -/
def login (s : Store) (current : Option User) (email pw : String)
    (remember : Bool) : LoginOutcome :=
  match current with
  | some _ => .redirectHome
  | none =>
    match findByEmail s email with
    | some u =>
      if check_password_hash u.password pw then .success u remember
      else .failure "Login Unsuccessful. Please check email and password"
    | none => .failure "Login Unsuccessful. Please check email and password"

/-! ## Password-reset routes (`flaskblog/users/routes.py`) -/

/-- Observable outcome of the `reset_request` route on a validated POST. -/
inductive ResetRequestTag where
  | redirectHome
  | emailSent
  | fieldError (msg : String)
deriving DecidableEq, Repr

/-- The `reset_request` route: an authenticated caller is redirected home;
`RequestResetForm.validate_email` fails with a distinct message when no
account has the email; otherwise `send_reset_email(user)` is invoked and
the info flash shown. -/
def reset_request (s : Store) (current : Option User) (email : String) :
    ResetRequestTag :=
  match current with
  | some _ => .redirectHome
  | none =>
    match findByEmail s email with
    | none =>
      .fieldError "There is no account with that email. You must register first."
    | some _ => .emailSent

/-- Observable outcome of the `reset_token` route. -/
inductive ResetTokenTag where
  | redirectHome
  | invalidToken
  | passwordUpdated
  | renderForm
deriving DecidableEq, Repr

/-- The `reset_token` route: an authenticated caller is redirected home;
`User.verify_reset_token(token)` (default expiry 1800 s) failing flashes
`'That is an invalid or expired token'`; on a validated POST the user's
password hash is replaced and committed; otherwise the form is rendered.
Paired with the resulting store. -/
def reset_token (secret : Nat) (s : Store) (current : Option User)
    (t : SignedToken) (now : Nat) (formValid : Bool) (newPw : String)
    (salt : Nat) : ResetTokenTag × Store :=
  match current with
  | some _ => (.redirectHome, s)
  | none =>
    match verify_reset_token_default secret s t now with
    | none => (.invalidToken, s)
    | some u =>
      if formValid then
        (.passwordUpdated, setPassword s u.id (generate_password_hash newPw salt))
      else
        (.renderForm, s)

/-! ## Post model and guarded post routes
(`flaskblog/models.py`, `flaskblog/posts/routes.py`) -/

/-- A column value of SQLAlchemy's `DateTime(timezone=True)`: an instant
together with whether the value is timezone-aware. -/
structure AwareDateTime where
  epoch : Nat
  tzAware : Bool
deriving DecidableEq, Repr

/-- Embeds `datetime.now(timezone.utc)` — the `date_posted` column default: the
current instant, timezone-aware. -/
def now_utc (t : Nat) : AwareDateTime :=
  ⟨t, true⟩

/-- The `Post` model of `flaskblog/models.py`: id (primary key), title,
content, creation timestamp (defaulted to `datetime.now(timezone.utc)`),
and the `user_id` foreign key to the author (the `author` backref resolves
to the `User` row with this id). -/
structure Post where
  id : Nat
  title : String
  content : String
  date_posted : AwareDateTime
  user_id : Nat
deriving DecidableEq, Repr

/-- Embeds `Post.query.get(post_id)` — the lookup behind `get_or_404`. -/
def getPost (ps : List Post) (postId : Nat) : Option Post :=
  ps.find? (fun p => p.id == postId)

/-- Outcome tag of a guarded post route. -/
inductive GateTag where
  | redirectLogin
  | notFound
  | forbidden
  | okMutated
  | okRendered
deriving DecidableEq, Repr

/-- A fresh `Post` as built by the `new_post` route: `Post(title=...,
content=..., author=current_user)` with the `date_posted` column default
applied at creation. -/
def mkPost (pid : Nat) (title content : String) (authorId now : Nat) : Post :=
  ⟨pid, title, content, now_utc now, authorId⟩

/-- The `new_post` route: `@login_required` redirects an anonymous caller
to login; on a validated POST the new post is added with the session user
as author; otherwise the form is rendered. -/
def new_post (ps : List Post) (current : Option User) (formValid : Bool)
    (title content : String) (pid now : Nat) : GateTag × List Post :=
  match current with
  | none => (.redirectLogin, ps)
  | some cu =>
    if formValid then
      (.okMutated, ps ++ [mkPost pid title content cu.id now])
    else
      (.okRendered, ps)

/-- The in-place mutation of the `update_post` route applied to the store:
the fetched post (found by primary key) gets the submitted title and
content; every other row is untouched. -/
def applyUpdate (postId : Nat) (newTitle newContent : String) (q : Post) :
    Post :=
  if q.id == postId then { q with title := newTitle, content := newContent }
  else q

/-- The `update_post` route: `@login_required` first (anonymous callers are
redirected to login); then `Post.query.get_or_404(post_id)` (missing post
aborts 404); then `if post.author != current_user: abort(403)`; only then,
on a validated POST, is the mutation applied and committed; a GET or
invalid form just renders.  Paired with the resulting store. -/
def update_post (ps : List Post) (current : Option User) (postId : Nat)
    (formValid : Bool) (newTitle newContent : String) : GateTag × List Post :=
  match current with
  | none => (.redirectLogin, ps)
  | some cu =>
    match getPost ps postId with
    | none => (.notFound, ps)
    | some p =>
      if p.user_id != cu.id then (.forbidden, ps)
      else if formValid then
        (.okMutated, ps.map (applyUpdate postId newTitle newContent))
      else (.okRendered, ps)

/-- The `delete_post` route: `@login_required` first; then `get_or_404`;
then the ownership check `abort(403)`; only then `db.session.delete(post)`
and commit.  Paired with the resulting store. -/
def delete_post (ps : List Post) (current : Option User) (postId : Nat) :
    GateTag × List Post :=
  match current with
  | none => (.redirectLogin, ps)
  | some cu =>
    match getPost ps postId with
    | none => (.notFound, ps)
    | some p =>
      if p.user_id != cu.id then (.forbidden, ps)
      else (.okMutated, ps.filter (fun q => q.id != postId))

/-! ## Helper lemmas -/

/-- A `find?` returning `none` means no member satisfies the predicate. -/
lemma forall_not_of_find?_eq_none {p : User → Bool} {l : List User}
    (h : l.find? p = none) : ∀ u ∈ l, p u = false := by
  intro u hu
  have := List.find?_eq_none.mp h u hu
  simpa using this

/-- Under unique primary keys, two members with the same id are the same
record. -/
lemma eq_of_mem_of_uniqueIds {s : Store} {a b : User}
    (hids : uniqueIds s) (ha : a ∈ s) (hb : b ∈ s) (h : a.id = b.id) :
    a = b := by
  induction s with
  | nil => cases ha
  | cons x xs ih =>
    rcases List.pairwise_cons.mp hids with ⟨hx, hxs⟩
    rcases List.mem_cons.mp ha with rfl | ha'
    · rcases List.mem_cons.mp hb with rfl | hb'
      · rfl
      · exact absurd h (hx b hb')
    · rcases List.mem_cons.mp hb with rfl | hb'
      · exact absurd h.symm (hx a ha')
      · exact ih hxs ha' hb'

/-- A concrete registered user used by the witnesses. -/
def aliceUser : User :=
  ⟨1, "alice", "alice@example.com", "default.jpg",
   generate_password_hash "secret" 0⟩

/-- A concrete post authored by user id 1, used by the witnesses. -/
def alicePost : Post :=
  ⟨1, "t", "c", ⟨0, true⟩, 1⟩

/-! ## Claim theorems -/

/-- Claim C1: for every post `P` and every authenticated acting user `B`
distinct from `P`'s author, both `update_post` and `delete_post` on `P`
fail with the Forbidden (403) outcome and the post store — in particular
`P`'s record (title, content, date_posted, author) — is left unchanged. -/
theorem update_delete_forbidden_for_non_author (ps : List Post) (p : Post)
    (cu : User) (postId : Nat) (fv : Bool) (nt nc : String)
    (hp : getPost ps postId = some p) (hne : p.user_id ≠ cu.id) :
    update_post ps (some cu) postId fv nt nc = (.forbidden, ps) ∧
    delete_post ps (some cu) postId = (.forbidden, ps) := by
  constructor <;> simp [update_post, delete_post, hp, hne]

/-- Witness for C1: user id 2 acting on the post authored by user id 1 is
rejected with Forbidden by both routes and the store is unchanged. -/
theorem update_delete_forbidden_for_non_author_witness :
    update_post [alicePost] (some ⟨2, "bob", "bob@example.com", "default.jpg",
        generate_password_hash "pw" 1⟩) 1 true "nt" "nc"
      = (.forbidden, [alicePost]) ∧
    delete_post [alicePost] (some ⟨2, "bob", "bob@example.com", "default.jpg",
        generate_password_hash "pw" 1⟩) 1
      = (.forbidden, [alicePost]) :=
  update_delete_forbidden_for_non_author [alicePost] alicePost
    ⟨2, "bob", "bob@example.com", "default.jpg", generate_password_hash "pw" 1⟩
    1 true "nt" "nc" rfl (by decide)

/-- Claim C3: a reset token issued for a stored user `u` and verified with
zero elapsed time under any `max_age_seconds ≥ 0` succeeds and resolves
back to the same user `u`. -/
theorem issue_verify_roundtrip (secret : Nat) (s : Store) (u : User)
    (now maxAge : Nat) (hu : getById s u.id = some u) :
    verify_reset_token secret s (get_reset_token secret u now) now maxAge
      = some u := by
  simp [verify_reset_token, get_reset_token, serializer_dumps,
        serializer_loads, hu]

/-- Witness for C3: the token issued for the stored user at time 42
verifies at time 42 with `max_age` 0. -/
theorem issue_verify_roundtrip_witness :
    verify_reset_token 7 [aliceUser] (get_reset_token 7 aliceUser 42) 42 0
      = some aliceUser :=
  issue_verify_roundtrip 7 [aliceUser] aliceUser 42 0 rfl

/-- Claim C5: a login attempt with an email absent from the store and a
login attempt with a stored email but a non-matching password produce the
same observable outcome — the same user-facing flash message and no session
established — so the response does not reveal whether the account exists. -/
theorem login_no_account_enumeration (s : Store) (e1 p1 e2 p2 : String)
    (r : Bool) (u : User)
    (h1 : findByEmail s e1 = none)
    (h2 : findByEmail s e2 = some u)
    (h3 : check_password_hash u.password p2 = false) :
    login s none e1 p1 r = login s none e2 p2 r ∧
    login s none e1 p1 r
      = .failure "Login Unsuccessful. Please check email and password" ∧
    ∀ u' r', login s none e1 p1 r ≠ .success u' r' := by
  simp [login, h1, h2, h3]

/-- Witness for C5: with `alice` registered, logging in as the unknown
`eve@example.com` and logging in as `alice@example.com` with a wrong
password give the identical failure flash and no session. -/
theorem login_no_account_enumeration_witness :
    login [aliceUser] none "eve@example.com" "x" false =
      login [aliceUser] none "alice@example.com" "wrong" false ∧
    login [aliceUser] none "eve@example.com" "x" false
      = .failure "Login Unsuccessful. Please check email and password" ∧
    ∀ u' r', login [aliceUser] none "eve@example.com" "x" false
      ≠ .success u' r' :=
  login_no_account_enumeration [aliceUser] "eve@example.com" "x"
    "alice@example.com" "wrong" false aliceUser (by decide) (by decide)
    (by decide)

/-- Claim C7: verifying a hash against the plaintext it was produced from
succeeds; verifying it against any other plaintext fails; and two hashings
of the same plaintext with distinct per-call salts yield different opaque
hashes (the salt is embedded in the output). -/
theorem password_hasher_contract (p p1 p2 : String) (salt s1 s2 : Nat)
    (hne : p1 ≠ p2) (hs : s1 ≠ s2) :
    check_password_hash (generate_password_hash p salt) p = true ∧
    check_password_hash (generate_password_hash p1 salt) p2 = false ∧
    generate_password_hash p s1 ≠ generate_password_hash p s2 := by
  refine ⟨by simp [check_password_hash, generate_password_hash], ?_, ?_⟩
  · simp [check_password_hash, generate_password_hash, bcryptTag, hne]
  · simp [generate_password_hash, bcryptTag, PwHash.mk.injEq, hs]

/-- Witness for C7: concrete round-trip, mismatch and distinct-salt
instances of the hasher contract. -/
theorem password_hasher_contract_witness :
    check_password_hash (generate_password_hash "secret" 3) "secret" = true ∧
    check_password_hash (generate_password_hash "secret" 3) "Secret" = false ∧
    generate_password_hash "secret" 3 ≠ generate_password_hash "secret" 4 :=
  password_hasher_contract "secret" "secret" "Secret" 3 3 4 (by decide)
    (by decide)

/-- Claim C10: the password-reset request endpoint distinguishes unknown
emails — it fails with the message `There is no account with that email.
You must register first.` — from stored emails, for which it reports that
the reset email was sent; the two outcomes differ, so the endpoint reveals
account existence. -/
theorem reset_request_reveals_account (s : Store) (e1 e2 : String) (u : User)
    (h1 : findByEmail s e1 = none) (h2 : findByEmail s e2 = some u) :
    reset_request s none e1 =
      .fieldError "There is no account with that email. You must register first." ∧
    reset_request s none e2 = .emailSent ∧
    reset_request s none e1 ≠ reset_request s none e2 := by
  simp [reset_request, h1, h2]

/-- Witness for C10: with `alice` registered, requesting a reset for
`eve@example.com` yields the distinct field error while requesting one for
`alice@example.com` reports the email as sent. -/
theorem reset_request_reveals_account_witness :
    reset_request [aliceUser] none "eve@example.com" =
      .fieldError "There is no account with that email. You must register first." ∧
    reset_request [aliceUser] none "alice@example.com" = .emailSent ∧
    reset_request [aliceUser] none "eve@example.com"
      ≠ reset_request [aliceUser] none "alice@example.com" :=
  reset_request_reveals_account [aliceUser] "eve@example.com"
    "alice@example.com" aliceUser (by decide) (by decide)

/-- Claim C2: for a token whose embedded user id resolves in the store (as
holds for every token the server issues, since only it can produce a valid
signature and users are never deleted), `verify_reset_token` returns the
user exactly when the signature matches the server secret and no more than
`max_age_seconds` have elapsed since the embedded timestamp; a token with a
mismatching signature (e.g. a flipped bit) and a token older than
`max_age_seconds` both yield `None`; the password-reset default for
`expires_sec` is 1800. -/
theorem verify_reset_token_accepts_iff (secret uid ts sig now maxAge : Nat)
    (s : Store) (u : User) (hu : getById s uid = some u) :
    (verify_reset_token secret s ⟨uid, ts, sig⟩ now maxAge = some u ↔
      (sig = signature_of secret uid ts ∧ now - ts ≤ maxAge)) ∧
    (sig ≠ signature_of secret uid ts →
      verify_reset_token secret s ⟨uid, ts, sig⟩ now maxAge = none) ∧
    (maxAge < now - ts →
      verify_reset_token secret s ⟨uid, ts, sig⟩ now maxAge = none) ∧
    verify_reset_token_default secret s ⟨uid, ts, sig⟩ now
      = verify_reset_token secret s ⟨uid, ts, sig⟩ now 1800 := by
  refine ⟨?_, ?_, ?_, rfl⟩
  · by_cases hsig : sig = signature_of secret uid ts
    · by_cases hage : maxAge < now - ts
      · simp [verify_reset_token, serializer_loads, hsig, hage]
        omega
      · simp [verify_reset_token, serializer_loads, hsig, hage, hu]
        omega
    · simp [verify_reset_token, serializer_loads, hsig]
  · intro h
    simp [verify_reset_token, serializer_loads, h]
  · intro h
    by_cases hsig : sig = signature_of secret uid ts
    · simp [verify_reset_token, serializer_loads, hsig, h]
    · simp [verify_reset_token, serializer_loads, hsig]

/-- Witness for C2: with `alice` (id 1) stored and secret 7, the correctly
signed fresh token verifies to `alice`, a token with a perturbed signature
verifies to `None`, and a 2000-second-old token verifies to `None` under
the 1800-second default. -/
theorem verify_reset_token_accepts_iff_witness :
    verify_reset_token 7 [aliceUser] ⟨1, 10, signature_of 7 1 10⟩ 10 1800
      = some aliceUser ∧
    verify_reset_token 7 [aliceUser] ⟨1, 10, signature_of 7 1 10 + 1⟩ 10 1800
      = none ∧
    verify_reset_token 7 [aliceUser] ⟨1, 10, signature_of 7 1 10⟩ 2010 1800
      = none := by
  refine ⟨?_, ?_, ?_⟩
  · exact (verify_reset_token_accepts_iff 7 1 10 (signature_of 7 1 10) 10 1800
      [aliceUser] aliceUser rfl).1.mpr ⟨rfl, by omega⟩
  · exact (verify_reset_token_accepts_iff 7 1 10 (signature_of 7 1 10 + 1) 10
      1800 [aliceUser] aliceUser rfl).2.1 (by omega)
  · exact (verify_reset_token_accepts_iff 7 1 10 (signature_of 7 1 10) 2010
      1800 [aliceUser] aliceUser rfl).2.2.1 (by omega)

/-- The update route leaves the store untouched unless it reaches the
mutating branch. -/
lemma update_post_cases (ps : List Post) (cur : Option User) (postId : Nat)
    (fv : Bool) (nt nc : String) :
    (update_post ps cur postId fv nt nc).1 = .okMutated ∨
    (update_post ps cur postId fv nt nc).2 = ps := by
  rcases cur with _ | cu
  · exact .inr rfl
  · cases hps : getPost ps postId with
    | none => simp [update_post, hps]
    | some p =>
      by_cases hb : (p.user_id != cu.id) = true
      · simp [update_post, hps, hb]
      · cases fv
        · simp [update_post, hps, hb]
        · simp [update_post, hps, hb]

/-- The delete route leaves the store untouched unless it reaches the
mutating branch. -/
lemma delete_post_cases (ps : List Post) (cur : Option User) (postId : Nat) :
    (delete_post ps cur postId).1 = .okMutated ∨
    (delete_post ps cur postId).2 = ps := by
  rcases cur with _ | cu
  · exact .inr rfl
  · cases hps : getPost ps postId with
    | none => simp [delete_post, hps]
    | some p =>
      by_cases hb : (p.user_id != cu.id) = true
      · simp [delete_post, hps, hb]
      · simp [delete_post, hps, hb]

/-- Claim C6: for the guarded post routes, authentication is checked before
anything else (an anonymous caller is redirected to login whatever the post
id); for an authenticated caller a post id that does not resolve fails with
NotFound regardless of which user is acting, i.e. before the ownership
comparison; and whenever the outcome is one of the gate failures
(redirect-to-login, NotFound, Forbidden) the post store is unchanged. -/
theorem post_gates_order (ps : List Post) (postId : Nat) (fv : Bool)
    (nt nc : String) (cu : User) :
    (update_post ps none postId fv nt nc = (.redirectLogin, ps) ∧
     delete_post ps none postId = (.redirectLogin, ps)) ∧
    (getPost ps postId = none →
      update_post ps (some cu) postId fv nt nc = (.notFound, ps) ∧
      delete_post ps (some cu) postId = (.notFound, ps)) ∧
    (∀ cur, (update_post ps cur postId fv nt nc).1 = .redirectLogin ∨
            (update_post ps cur postId fv nt nc).1 = .notFound ∨
            (update_post ps cur postId fv nt nc).1 = .forbidden →
        (update_post ps cur postId fv nt nc).2 = ps) ∧
    (∀ cur, (delete_post ps cur postId).1 = .redirectLogin ∨
            (delete_post ps cur postId).1 = .notFound ∨
            (delete_post ps cur postId).1 = .forbidden →
        (delete_post ps cur postId).2 = ps) := by
  refine ⟨⟨rfl, rfl⟩, ?_, ?_, ?_⟩
  · intro h
    exact ⟨by simp [update_post, h], by simp [delete_post, h]⟩
  · intro cur h
    rcases update_post_cases ps cur postId fv nt nc with h1 | h1
    · rw [h1] at h; simp at h
    · exact h1
  · intro cur h
    rcases delete_post_cases ps cur postId with h1 | h1
    · rw [h1] at h; simp at h
    · exact h1

/-- Witness for C6: an anonymous caller is redirected to login even though
the post exists, and an authenticated caller hitting a missing id gets
NotFound from both routes with the store unchanged. -/
theorem post_gates_order_witness :
    update_post [alicePost] none 1 true "a" "b"
      = (.redirectLogin, [alicePost]) ∧
    update_post [] (some aliceUser) 1 true "a" "b" = (.notFound, []) ∧
    delete_post [] (some aliceUser) 1 = (.notFound, []) := by
  refine ⟨(post_gates_order [alicePost] 1 true "a" "b" aliceUser).1.1, ?_, ?_⟩
  · exact ((post_gates_order [] 1 true "a" "b" aliceUser).2.1 rfl).1
  · exact ((post_gates_order [] 1 true "a" "b" aliceUser).2.1 rfl).2

/-- Claim C8: a post's creation timestamp is the timezone-aware current
instant, set once at creation; a successful update by the author rewrites
the store pointwise with `applyUpdate`, which changes only the target
post's title and content and leaves id, date_posted and author untouched on
every row. -/
theorem date_posted_set_once_and_update_frame (ps : List Post) (p : Post)
    (cu : User) (postId : Nat) (nt nc : String) (pid aid t : Nat)
    (title content : String)
    (hp : getPost ps postId = some p) (hown : p.user_id = cu.id) :
    (mkPost pid title content aid t).date_posted = now_utc t ∧
    (now_utc t).tzAware = true ∧
    update_post ps (some cu) postId true nt nc
      = (.okMutated, ps.map (applyUpdate postId nt nc)) ∧
    (∀ q : Post, (applyUpdate postId nt nc q).id = q.id ∧
      (applyUpdate postId nt nc q).date_posted = q.date_posted ∧
      (applyUpdate postId nt nc q).user_id = q.user_id) ∧
    (∀ q : Post, q.id = postId →
      (applyUpdate postId nt nc q).title = nt ∧
      (applyUpdate postId nt nc q).content = nc) := by
  refine ⟨rfl, rfl, ?_, ?_, ?_⟩
  · simp [update_post, hp, hown]
  · intro q
    unfold applyUpdate
    split <;> simp
  · intro q hq
    simp [applyUpdate, hq]

/-- Witness for C8: creating a post at time 99 stamps the aware instant 99;
alice updating her own post mutates exactly the title and content and keeps
the creation timestamp. -/
theorem date_posted_set_once_and_update_frame_witness :
    (mkPost 2 "hello" "world" 1 99).date_posted = now_utc 99 ∧
    update_post [alicePost] (some aliceUser) 1 true "new" "body"
      = (.okMutated, [alicePost].map (applyUpdate 1 "new" "body")) ∧
    (applyUpdate 1 "new" "body" alicePost).date_posted
      = alicePost.date_posted ∧
    (applyUpdate 1 "new" "body" alicePost).title = "new" := by
  have h := date_posted_set_once_and_update_frame [alicePost] alicePost
    aliceUser 1 "new" "body" 2 1 99 "hello" "world" rfl rfl
  exact ⟨h.1, h.2.2.1, (h.2.2.2.1 alicePost).2.1,
    (h.2.2.2.2 alicePost rfl).1⟩

/-- A password change touches no primary key, so lookups after
`setPassword` see the same record with only the hash replaced. -/
lemma getById_setPassword (s : Store) (uid : Nat) (h : PwHash)
    (uid' : Nat) :
    getById (setPassword s uid h) uid' =
      (getById s uid').map (applyPasswordChange uid h) := by
  have hp : ((fun u : User => u.id == uid') ∘ applyPasswordChange uid h)
      = (fun u : User => u.id == uid') := by
    funext v
    simp only [Function.comp_apply, applyPasswordChange]
    split <;> rfl
  unfold getById setPassword
  rw [List.find?_map, hp]

/-- Claim C9: reset tokens are not single-use — a successful password
change performed with token `t` does not invalidate `t`: verifying `t` at
any later time still inside the 1800-second window again returns the same
user (now carrying the new hash), so `t` can be replayed until its natural
expiry. -/
theorem reset_token_replayable (secret : Nat) (s : Store) (t : SignedToken)
    (now later : Nat) (u : User) (pw : String) (salt : Nat)
    (hv : verify_reset_token_default secret s t now = some u)
    (hl : later - t.timestamp ≤ 1800) :
    (reset_token secret s none t now true pw salt).1 = .passwordUpdated ∧
    verify_reset_token_default secret
      (reset_token secret s none t now true pw salt).2 t later
      = some { u with password := generate_password_hash pw salt } := by
  have hsig : t.signature = signature_of secret t.user_id t.timestamp := by
    by_contra hc
    simp [verify_reset_token_default, verify_reset_token, serializer_loads,
      hc] at hv
  have hg : getById s t.user_id = some u := by
    by_cases hage : 1800 < now - t.timestamp
    · simp [verify_reset_token_default, verify_reset_token, serializer_loads,
        hsig, hage] at hv
    · simpa [verify_reset_token_default, verify_reset_token,
        serializer_loads, hsig, hage] using hv
  have huid : u.id = t.user_id := by
    have hfind : s.find? (fun v => v.id == t.user_id) = some u := hg
    simpa using List.find?_some hfind
  have hroute : reset_token secret s none t now true pw salt
      = (.passwordUpdated,
         setPassword s u.id (generate_password_hash pw salt)) := by
    simp [reset_token, hv]
  refine ⟨by rw [hroute], ?_⟩
  rw [hroute]
  have h2 : getById (setPassword s u.id (generate_password_hash pw salt))
      t.user_id
      = some { u with password := generate_password_hash pw salt } := by
    rw [getById_setPassword, hg]
    simp [applyPasswordChange, huid]
  simp [verify_reset_token_default, verify_reset_token, serializer_loads,
    hsig, Nat.not_lt.mpr hl, h2]

/-- Witness for C9: alice's token issued at time 10 is used to change her
password at time 10; the same token still verifies at time 1810 (exactly
the expiry bound) and returns alice with the replaced hash. -/
theorem reset_token_replayable_witness :
    (reset_token 7 [aliceUser] none ⟨1, 10, signature_of 7 1 10⟩ 10 true
      "npw" 5).1 = .passwordUpdated ∧
    verify_reset_token_default 7
      (reset_token 7 [aliceUser] none ⟨1, 10, signature_of 7 1 10⟩ 10 true
        "npw" 5).2
      ⟨1, 10, signature_of 7 1 10⟩ 1810
      = some { aliceUser with password := generate_password_hash "npw" 5 } :=
  reset_token_replayable 7 [aliceUser] ⟨1, 10, signature_of 7 1 10⟩ 10 1810
    aliceUser "npw" 5 (by decide) (by decide)

/-- An `UpdateAccountForm` validator that did not fire means the field is
unchanged or the new value is free. -/
lemma validator_cases {a b : String} {o : Option User}
    (h : ¬(((a != b) && o.isSome) = true)) : a = b ∨ o = none := by
  rcases o with _ | u
  · exact .inr rfl
  · left
    by_contra hc
    exact h (by simp [hc])

/-- The function `applyAccountUpdate` never changes a primary key. -/
lemma applyAccountUpdate_id (cu : User) (nu ne : String)
    (pic : Option String) (v : User) :
    (applyAccountUpdate cu nu ne pic v).id = v.id := by
  unfold applyAccountUpdate
  split <;> rfl

/-- Uniqueness of a string key is preserved by a conditional by-id rewrite
when the new key value is either absent from the store or already the key
of every record carrying the rewritten id. -/
lemma pairwise_key_map (s : Store) (uid : Nat) (g : User → User)
    (key : User → String) (nv : String)
    (hk : ∀ v, (v.id == uid) = false → key (g v) = key v)
    (hk2 : ∀ v, (v.id == uid) = true → key (g v) = nv)
    (hids : uniqueIds s)
    (hkeys : s.Pairwise (fun a b => key a ≠ key b))
    (hok : (∀ b ∈ s, key b ≠ nv) ∨ (∀ a ∈ s, a.id = uid → key a = nv)) :
    (s.map g).Pairwise (fun a b => key a ≠ key b) := by
  rw [List.pairwise_map]
  refine (hids.and hkeys).imp_of_mem ?_
  intro a b ha hb hab
  rcases hab with ⟨hid, hkey⟩
  by_cases h1 : (a.id == uid) = true
  · by_cases h2 : (b.id == uid) = true
    · have e1 : a.id = uid := by simpa using h1
      have e2 : b.id = uid := by simpa using h2
      exact absurd (e1.trans e2.symm) hid
    · rw [hk2 a h1, hk b (by simpa using h2)]
      rcases hok with hok | hok
      · exact fun hc => hok b hb hc.symm
      · have e1 : key a = nv := hok a ha (by simpa using h1)
        rw [← e1]
        exact hkey
  · by_cases h2 : (b.id == uid) = true
    · rw [hk a (by simpa using h1), hk2 b h2]
      rcases hok with hok | hok
      · exact hok a ha
      · have e2 : key b = nv := hok b hb (by simpa using h2)
        rw [← e2]
        exact hkey
    · rw [hk a (by simpa using h1), hk b (by simpa using h2)]
      exact hkey

/-- The function `applyPasswordChange` never changes a primary key. -/
lemma applyPasswordChange_id (uid : Nat) (h : PwHash) (v : User) :
    (applyPasswordChange uid h v).id = v.id := by
  unfold applyPasswordChange
  split <;> rfl

/-- The function `applyPasswordChange` never changes a username. -/
lemma applyPasswordChange_username (uid : Nat) (h : PwHash) (v : User) :
    (applyPasswordChange uid h v).username = v.username := by
  unfold applyPasswordChange
  split <;> rfl

/-- The function `applyPasswordChange` never changes an email. -/
lemma applyPasswordChange_email (uid : Nat) (h : PwHash) (v : User) :
    (applyPasswordChange uid h v).email = v.email := by
  unfold applyPasswordChange
  split <;> rfl

/-- Every reachable user-store state has pairwise-distinct primary keys,
usernames and emails (spec §3 uniqueness invariant). -/
theorem reachable_invariant (s : Store) (hs : Reachable s) :
    uniqueIds s ∧ uniqueUsernames s ∧ uniqueEmails s := by
  induction hs with
  | nil =>
    exact ⟨List.Pairwise.nil, List.Pairwise.nil, List.Pairwise.nil⟩
  | register s s' uname email pw newId salt hr hfresh heq ih =>
    by_cases h1 : (findByUsername s uname).isSome
    · simp [register, h1] at heq
    · by_cases h2 : (findByEmail s email).isSome
      · simp [register, h1, h2] at heq
      · have hval : register s uname email pw newId salt
            = (.created, s ++ [⟨newId, uname, email, "default.jpg",
                                generate_password_hash pw salt⟩]) := by
          simp [register, h1, h2]
        rw [hval] at heq
        have hs2 := congrArg Prod.snd heq
        simp only at hs2
        subst hs2
        have hnameNone : findByUsername s uname = none :=
          Option.not_isSome_iff_eq_none.mp h1
        have hemailNone : findByEmail s email = none :=
          Option.not_isSome_iff_eq_none.mp h2
        have hnames : ∀ v ∈ s, v.username ≠ uname := by
          intro v hv
          simpa using forall_not_of_find?_eq_none hnameNone v hv
        have hemails : ∀ v ∈ s, v.email ≠ email := by
          intro v hv
          simpa using forall_not_of_find?_eq_none hemailNone v hv
        refine ⟨?_, ?_, ?_⟩
        · unfold uniqueIds
          rw [List.pairwise_append]
          refine ⟨ih.1, by simp, ?_⟩
          intro a ha b hb
          have hb2 : b = ⟨newId, uname, email, "default.jpg",
              generate_password_hash pw salt⟩ := by simpa using hb
          subst hb2
          exact hfresh a ha
        · unfold uniqueUsernames
          rw [List.pairwise_append]
          refine ⟨ih.2.1, by simp, ?_⟩
          intro a ha b hb
          have hb2 : b = ⟨newId, uname, email, "default.jpg",
              generate_password_hash pw salt⟩ := by simpa using hb
          subst hb2
          exact hnames a ha
        · unfold uniqueEmails
          rw [List.pairwise_append]
          refine ⟨ih.2.2, by simp, ?_⟩
          intro a ha b hb
          have hb2 : b = ⟨newId, uname, email, "default.jpg",
              generate_password_hash pw salt⟩ := by simpa using hb
          subst hb2
          exact hemails a ha
  | updateAccount s s' cu nu ne pic hr hcu heq ih =>
    by_cases h1 : ((nu != cu.username) && (findByUsername s nu).isSome) = true
    · simp [update_account, h1] at heq
    · by_cases h2 : ((ne != cu.email) && (findByEmail s ne).isSome) = true
      · simp [update_account, h1, h2] at heq
      · have hval : update_account s cu nu ne pic
            = (.created, s.map (applyAccountUpdate cu nu ne pic)) := by
          simp [update_account, h1, h2]
        rw [hval] at heq
        have hs2 := congrArg Prod.snd heq
        simp only at hs2
        subst hs2
        have hu := validator_cases h1
        have he := validator_cases h2
        refine ⟨?_, ?_, ?_⟩
        · unfold uniqueIds
          rw [List.pairwise_map]
          refine ih.1.imp ?_
          intro a b hab
          rw [applyAccountUpdate_id, applyAccountUpdate_id]
          exact hab
        · exact pairwise_key_map s cu.id (applyAccountUpdate cu nu ne pic)
            (fun u => u.username) nu
            (fun v hv => by simp [applyAccountUpdate, hv])
            (fun v hv => by simp [applyAccountUpdate, hv])
            ih.1 ih.2.1
            (by
              rcases hu with h | h
              · right
                intro a ha haid
                have ha2 : a = cu := eq_of_mem_of_uniqueIds ih.1 ha hcu haid
                rw [ha2]
                exact h.symm
              · left
                intro b hb
                simpa using forall_not_of_find?_eq_none h b hb)
        · exact pairwise_key_map s cu.id (applyAccountUpdate cu nu ne pic)
            (fun u => u.email) ne
            (fun v hv => by simp [applyAccountUpdate, hv])
            (fun v hv => by simp [applyAccountUpdate, hv])
            ih.1 ih.2.2
            (by
              rcases he with h | h
              · right
                intro a ha haid
                have ha2 : a = cu := eq_of_mem_of_uniqueIds ih.1 ha hcu haid
                rw [ha2]
                exact h.symm
              · left
                intro b hb
                simpa using forall_not_of_find?_eq_none h b hb)
  | resetPassword s uid h hr ih =>
    refine ⟨?_, ?_, ?_⟩
    · unfold uniqueIds setPassword
      rw [List.pairwise_map]
      refine ih.1.imp ?_
      intro a b hab
      rw [applyPasswordChange_id, applyPasswordChange_id]
      exact hab
    · unfold uniqueUsernames setPassword
      rw [List.pairwise_map]
      refine ih.2.1.imp ?_
      intro a b hab
      rw [applyPasswordChange_username, applyPasswordChange_username]
      exact hab
    · unfold uniqueEmails setPassword
      rw [List.pairwise_map]
      refine ih.2.2.imp ?_
      intro a b hab
      rw [applyPasswordChange_email, applyPasswordChange_email]
      exact hab

/-- Claim C4: in every reachable store state no two user records share a
username and no two share an email; and a registration attempted with an
already-used email fails — its outcome is not `created` — and leaves the
store exactly as it was (the operation is atomic on failure). -/
theorem registration_uniqueness (s : Store) (hs : Reachable s) :
    (uniqueUsernames s ∧ uniqueEmails s) ∧
    ∀ un em pw newId salt, (findByEmail s em).isSome →
      (register s un em pw newId salt).1 ≠ RegTag.created ∧
      (register s un em pw newId salt).2 = s := by
  refine ⟨⟨(reachable_invariant s hs).2.1, (reachable_invariant s hs).2.2⟩, ?_⟩
  intro un em pw newId salt hem
  by_cases h1 : (findByUsername s un).isSome
  · simp [register, h1]
  · simp [register, h1, hem]

/-- Witness for C4: the store reached by registering `alice` into the empty
store satisfies both uniqueness invariants, and a second registration with
`alice@example.com` fails without creating a record. -/
theorem registration_uniqueness_witness :
    (uniqueUsernames [aliceUser] ∧ uniqueEmails [aliceUser]) ∧
    (register [aliceUser] "bob" "alice@example.com" "pw2" 2 1).1
      ≠ RegTag.created ∧
    (register [aliceUser] "bob" "alice@example.com" "pw2" 2 1).2
      = [aliceUser] := by
  have hr : Reachable [aliceUser] :=
    Reachable.register [] [aliceUser] "alice" "alice@example.com" "secret"
      1 0 Reachable.nil (by intro v hv; cases hv) rfl
  have h := registration_uniqueness [aliceUser] hr
  exact ⟨h.1, h.2 "bob" "alice@example.com" "pw2" 2 1 (by decide)⟩
